import Mathlib

/-
Verification of the orchestration core of the BornProfiler repository
(src/bornprofiler/membrane.py).

The module defines a base class BaseMem and two orchestrators, APBSmem
(single window) and BornAPBSmem (multi window Born profile).  The shallow
embedding below translates, statement by statement, the pieces of that
module that the claims depend on:

  * Python numeric values that are passed to str() are modelled by PyNum:
    an integer, or a float written as an exact decimal m * 10^(-e).  All
    numeric literals in the source are such decimals (0.0, 40.0, 0.1,
    298.15, ...), and pyStr reproduces the Python 2 str() rendering of
    these non-negative decimals.
  * An instance __dict__ is an association list String x Attr restricted
    to the attributes the per-stage slot lists can reach (strings and
    numbers); the slot lists in the source never mention the raw tuple
    attributes (dime, glen, filenames, vars), so those are not carried.
  * Side effects (file writes, subprocess calls) are events in a trace;
    exceptions become an error component.  External exit codes come from
    a ToolEnv oracle.
  * The config module and the template text files are not part of src/;
    the executable paths (apbs, drawmembrane) are therefore parameters of
    the constructors, and write only records the slot check plus the
    written filename (the template text itself is an external asset).
-/

/-- Python numeric value as it appears in this module: an int, or a float
given as the exact decimal m * 10^(-e) (all float literals in the source
are such decimals). -/
inductive PyNum where
  | int : Int → PyNum
  | float : Int → Nat → PyNum
deriving DecidableEq

/-- Pad a digit string on the left with zeros up to width w. -/
def padLeftZeros (s : String) (w : Nat) : String :=
  String.mk (List.replicate (w - s.length) '0') ++ s

/-- Model of Python 2 str() on the numeric values used here (non-negative
decimals): ints print with no decimal point, floats print all e stored
decimal digits. -/
def pyStr : PyNum → String
  | .int n => toString n
  | .float m e =>
    toString (m / ((10 : Int) ^ e)) ++ "." ++ padLeftZeros (toString ((m % ((10 : Int) ^ e)).toNat)) e

/-- Value stored in an instance __dict__ slot: a string or a number. -/
inductive Attr where
  | num : PyNum → Attr
  | str : String → Attr
deriving DecidableEq

/-- Python str() of an attribute (str is the identity on strings). -/
def attrStr : Attr → String
  | .num n => pyStr n
  | .str s => s

def splitCharAux (c : Char) : List Char → List Char → List String
  | [], acc => [String.mk acc.reverse]
  | x :: xs, acc =>
    if x = c then String.mk acc.reverse :: splitCharAux c xs []
    else splitCharAux c xs (x :: acc)

/-- Model of Python str.split(c) for a single-character separator. -/
def splitChar (c : Char) (s : String) : List String :=
  splitCharAux c s.data []

/-- Model of str.split(",") as used on the per-stage slot lists. -/
def splitCommas (s : String) : List String := splitChar ',' s

def isPySpace (c : Char) : Bool := c = ' ' ∨ c = '\t' ∨ c = '\n' ∨ c = '\r'

/-- Model of Python str.strip(). -/
def stripStr (s : String) : String :=
  String.mk (((s.data.dropWhile isPySpace).reverse.dropWhile isPySpace).reverse)

/-- Model of os.path.basename (final component after the last slash). -/
def pyBasename (p : String) : String := (splitChar '/' p).getLastD ""

/-- BaseMem.vec2str: " ".join(map(str, vec)). -/
def vec2str (v : List PyNum) : String := String.intercalate " " (v.map pyStr)

abbrev AttrDict := List (String × Attr)

/-- Lookup in an association list (instance __dict__ model). -/
def lookupAttr : AttrDict → String → Option Attr
  | [], _ => none
  | (k, v) :: rest, key => if k = key then some v else lookupAttr rest key

/-- Lookup in a string-valued association list (self.vars / self.filenames). -/
def lookupStr : List (String × String) → String → Option String
  | [], _ => none
  | (k, v) :: rest, key => if k = key then some v else lookupStr rest key

/-- Exceptions raised by the pipeline: KeyError from a dict lookup, and the
EnvironmentError raised on a nonzero exit code of apbs or drawmembrane
(the error message carries the return code). -/
inductive PipelineError where
  | keyError : String → PipelineError
  | apbsError : Int → PipelineError
  | drawError : Int → PipelineError
deriving DecidableEq

/-- BaseMem.get_var_dict inner comprehension:
dict((k, self.__dict__[k.strip()]) for k in self.vars[stage].split(",")),
evaluated left to right; a missing key raises KeyError. -/
def gvdAux (d : AttrDict) : List String → Except PipelineError AttrDict
  | [] => .ok []
  | k :: ks =>
    match lookupAttr d (stripStr k) with
    | none => .error (.keyError (stripStr k))
    | some v =>
      match gvdAux d ks with
      | .error e => .error e
      | .ok rest => .ok ((stripStr k, v) :: rest)

/-- BaseMem.get_var_dict for a given slot-list string. -/
def get_var_dict (d : AttrDict) (varsStr : String) : Except PipelineError AttrDict :=
  gvdAux d (splitCommas varsStr)

/-- Observable side effects: writing an input file, calling apbs
(output file, input file), calling drawmembrane (full command line). -/
inductive MemEvent where
  | writeFile : String → MemEvent
  | apbsCall : String → String → MemEvent
  | drawCall : List String → MemEvent
deriving DecidableEq

def MemEvent.isApbs : MemEvent → Bool
  | .apbsCall _ _ => true
  | _ => false

def MemEvent.isDraw : MemEvent → Bool
  | .drawCall _ => true
  | _ => false

/-- Result of running a pipeline fragment: the events it performed, and the
exception it raised, if any. -/
structure StepRes where
  events : List MemEvent
  error : Option PipelineError
deriving DecidableEq

/-- Sequencing: if the first fragment raised, the rest does not run. -/
def StepRes.seq (r : StepRes) (k : Unit → StepRes) : StepRes :=
  match r.error with
  | some _ => r
  | none => ⟨r.events ++ (k ()).events, (k ()).error⟩

/-- Exit codes delivered by the external tools: apbs keyed by stage,
drawmembrane keyed by the infix argument. -/
structure ToolEnv where
  apbsRC : String → Int
  drawRC : String → Int

/-- The keyword parameters consumed by BaseMem.__init__ (kwargs.pop with
the documented defaults). -/
structure BaseKw where
  zmem : PyNum
  lmem : PyNum
  Vmem : PyNum
  mdie : PyNum
  sdie : PyNum
  pdie : PyNum
  hdie : PyNum
  lhgp : PyNum
  Rtop : PyNum
  Rbot : PyNum
  temperature : PyNum
  conc : PyNum
deriving DecidableEq

/-- The defaults of BaseMem.__init__: zmem=0.0, lmem=40.0, Vmem=0.0,
mdie=2.0, sdie=80.0, pdie=10.0, headgroup_die=20.0, headgroup_l=0.0,
Rtop=0, Rbot=0, temp=298.15, conc=0.1. -/
def defaultBaseKw : BaseKw :=
  ⟨.float 0 1, .float 400 1, .float 0 1, .float 20 1, .float 800 1,
   .float 100 1, .float 200 1, .float 0 1, .int 0, .int 0,
   .float 29815 2, .float 1 1⟩

/-- The __dict__ entries that BaseMem.__init__ assigns. -/
def baseEntries (kw : BaseKw) : AttrDict :=
  [("zmem", .num kw.zmem), ("lmem", .num kw.lmem), ("Vmem", .num kw.Vmem),
   ("mdie", .num kw.mdie), ("sdie", .num kw.sdie), ("pdie", .num kw.pdie),
   ("hdie", .num kw.hdie), ("lhgp", .num kw.lhgp), ("Rtop", .num kw.Rtop),
   ("Rbot", .num kw.Rbot), ("temperature", .num kw.temperature),
   ("conc", .num kw.conc)]

/-- The warning text of BaseMem.__init__ (the trailing reference to
config.CONFIGNAME comes from the config module, which is not in src/). -/
def compatWarning (d : String) : String :=
  "WARNING!! Only draw_membrane2a.c will work, not " ++ d ++
    ". Set the path in the configuration file."

/-- BaseMem.__init__ compatibility check: warn (do not raise) unless the
basename of the drawmembrane executable is draw_membrane2a. -/
def baseWarnings (d : String) : List String :=
  if pyBasename d ≠ "draw_membrane2a" then [compatWarning d] else []

/-- State of a constructed instance: executable paths, suffix, the
__dict__ model, and the per-stage vars and filenames tables. -/
structure MemState where
  drawmembrane : String
  apbs : String
  suffix : String
  dict : AttrDict
  varsMap : List (String × String)
  filenamesMap : List (String × String)
deriving DecidableEq

/-- Result of running __init__: side-effect events (none occur in the
source constructors), warnings, and the constructed state or the raised
error message. -/
structure InitResult where
  events : List MemEvent
  warnings : List String
  result : Except String MemState

def isOkE (e : Except String MemState) : Bool :=
  match e with
  | .ok _ => true
  | .error _ => false

/-- BaseMem.write: build the var dict for the stage (KeyError on a missing
slot happens before the file is opened), then write the rendered template
to the stage input file. -/
def writeStep (st : MemState) (stage : String) : StepRes :=
  match lookupStr st.varsMap stage with
  | none => ⟨[], some (.keyError stage)⟩
  | some vs =>
    match get_var_dict st.dict vs with
    | .error e => ⟨[], some e⟩
    | .ok _ =>
      match lookupStr st.filenamesMap stage with
      | none => ⟨[], some (.keyError stage)⟩
      | some fn => ⟨[.writeFile fn], none⟩

/-- BaseMem.outfile: "%s%s.out" % (stage, self.suffix). -/
def outfileName (st : MemState) (stage : String) : String :=
  stage ++ st.suffix ++ ".out"

/-- BaseMem.run_apbs: resolve filenames, call apbs, and raise an
EnvironmentError carrying the return code if it is nonzero. -/
def runApbsStep (st : MemState) (env : ToolEnv) (stage : String) : StepRes :=
  match lookupStr st.filenamesMap stage with
  | none => ⟨[], some (.keyError stage)⟩
  | some infileName =>
    let rc := env.apbsRC stage
    ⟨[.apbsCall (outfileName st stage) infileName],
     if rc = 0 then none else some (.apbsError rc)⟩

/-- The keys whose values run_drawmembrane puts on the command line,
in the fixed source order. -/
def drawArgKeys : List String :=
  ["zmem", "lmem", "pdie", "Vmem", "conc", "Rtop", "Rbot"]

def buildArgsAux (v : AttrDict) : List String → Except PipelineError (List String)
  | [] => .ok []
  | k :: ks =>
    match lookupAttr v k with
    | none => .error (.keyError k)
    | some a =>
      match buildArgsAux v ks with
      | .error e => .error e
      | .ok rest => .ok (attrStr a :: rest)

/-- run_drawmembrane command-line tail:
map(str, [v[zmem], v[lmem], v[pdie], v[Vmem], v[conc], v[Rtop], v[Rbot]]). -/
def buildArgs (v : AttrDict) : Except PipelineError (List String) :=
  buildArgsAux v drawArgKeys

/-- The seven stringified drawmembrane arguments for a given parameter
record. -/
def drawArgStrs (kw : BaseKw) : List String :=
  [pyStr kw.zmem, pyStr kw.lmem, pyStr kw.pdie, pyStr kw.Vmem,
   pyStr kw.conc, pyStr kw.Rtop, pyStr kw.Rbot]

/-- BaseMem.run_drawmembrane: build the var dict for stage drawmembrane2,
take the infix (default: self.suffix), build the command line
[drawmembrane, infix, zmem, lmem, pdie, Vmem, conc, Rtop, Rbot], call it,
and raise on a nonzero return code. -/
def runDrawStep (st : MemState) (env : ToolEnv) (ifxOpt : Option String) : StepRes :=
  match lookupStr st.varsMap "drawmembrane2" with
  | none => ⟨[], some (.keyError "drawmembrane2")⟩
  | some vs =>
    match get_var_dict st.dict vs with
    | .error e => ⟨[], some e⟩
    | .ok v =>
      let ifx := ifxOpt.getD st.suffix
      match buildArgs v with
      | .error e => ⟨[], some e⟩
      | .ok args =>
        let rc := env.drawRC ifx
        ⟨[.drawCall (st.drawmembrane :: ifx :: args)],
         if rc = 0 then none else some (.drawError rc)⟩

/-- A grid specification as passed to numpy.array: a flat list or a nested
list of rows. -/
inductive GridInput where
  | vec : List PyNum → GridInput
  | mat : List (List PyNum) → GridInput
deriving DecidableEq

def rowsRect : List (List PyNum) → Bool
  | [] => true
  | r :: rs => rs.all (fun q => q.length = r.length)

/-- numpy.array(x).shape for the inputs above: a flat list has shape
(len,); a rectangular nested list has shape (rows, cols); a ragged nested
list becomes an object array of shape (rows,). -/
def GridInput.shape : GridInput → List Nat
  | .vec xs => [xs.length]
  | .mat [] => [0]
  | .mat (r :: rs) =>
    if rowsRect (r :: rs) then [(r :: rs).length, r.length]
    else [(r :: rs).length]

/-- First-axis rows of an already shape-checked (3,3) array. -/
def GridInput.rowsOf : GridInput → List (List PyNum)
  | .vec xs => [xs]
  | .mat rs => rs

/-- BornAPBSmem dime handling after the shape check: a 1-d dime is
broadcast by numpy.concatenate([dime,dime,dime]).reshape(3,3); a nested
input keeps its rows.  (The object-array corner of a ragged nested input
of shape (3,) is modelled by its rows.) -/
def bornDimeRows : GridInput → List (List PyNum)
  | .vec xs => [xs, xs, xs]
  | .mat rs => rs

/-- The per-stage slot lists of APBSmem (self.vars), verbatim from the
source, including the double comma in the solvation entry. -/
def apbsmemVars : List (String × String) :=
  [("dummy", "pqr,suffix,pdie,sdie,conc,temperature,DIME_XYZ,GLEN_XYZ"),
   ("solvation", "pqr,suffix,pdie,sdie,conc,temperature,,DIME_XYZ,GLEN_XYZ"),
   ("drawmembrane2", "zmem,lmem,pdie,Vmem,conc,Rtop,Rbot,suffix")]

/-- The state APBSmem.__init__ builds. -/
def apbsState (pqr sfx : String) (dime glen : List PyNum) (kw : BaseKw)
    (dr ap : String) : MemState :=
  { drawmembrane := dr, apbs := ap, suffix := sfx,
    dict := [("pqr", .str pqr), ("suffix", .str sfx),
             ("DIME_XYZ", .str (vec2str dime)),
             ("GLEN_XYZ", .str (vec2str glen))] ++ baseEntries kw,
    varsMap := apbsmemVars,
    filenamesMap := [("dummy", "dummy" ++ sfx ++ ".in"),
                     ("solvation", "solvation" ++ sfx ++ ".in")] }

/-- APBSmem.__init__: stores pqr, suffix, dime, glen (no shape checks),
builds the filenames and vars tables, serializes DIME_XYZ and GLEN_XYZ,
then runs BaseMem.__init__ (which may warn but never raises). -/
def APBSmem.init (pqr sfx : String) (dime glen : List PyNum) (kw : BaseKw)
    (dr ap : String) : InitResult :=
  ⟨[], baseWarnings dr, .ok (apbsState pqr sfx dime glen kw dr ap)⟩

/-- The per-stage slot lists of BornAPBSmem (self.vars), verbatim. -/
def bornVars : List (String × String) :=
  [("born_dummy",
    "protein_pqr,ion_pqr,complex_pqr,pdie,sdie,conc,temperature,DIME_XYZ_L,DIME_XYZ_M,DIME_XYZ_S,GLEN_XYZ_L,GLEN_XYZ_M,GLEN_XYZ_S"),
   ("born_run",
    "protein_pqr,ion_pqr,complex_pqr,pdie,sdie,conc,temperature,comment,DIME_XYZ_L,DIME_XYZ_M,DIME_XYZ_S,GLEN_XYZ_L,GLEN_XYZ_M,GLEN_XYZ_S"),
   ("drawmembrane2", "zmem,lmem,pdie,Vmem,conc,Rtop,Rbot")]

/-- The izip(suffices, dime, glen) loop generating DIME_XYZ_[LMS] and
GLEN_XYZ_[LMS] (stops at the shortest sequence, as izip does). -/
def focusEntries : List String → List (List PyNum) → List (List PyNum) → AttrDict
  | s :: ss, d :: ds, g :: gs =>
    ("DIME_XYZ_" ++ s, Attr.str (vec2str d)) ::
    ("GLEN_XYZ_" ++ s, Attr.str (vec2str g)) :: focusEntries ss ds gs
  | _, _, _ => []

/-- The state BornAPBSmem.__init__ builds (suffix is the empty string,
filenames are the literal strings from the source: the percent-format
patterns contain no slots). -/
def bornState (p ion c cm : String) (dRows gRows : List (List PyNum))
    (kw : BaseKw) (dr ap : String) : MemState :=
  { drawmembrane := dr, apbs := ap, suffix := "",
    dict := [("protein_pqr", .str p), ("ion_pqr", .str ion),
             ("complex_pqr", .str c), ("suffix", .str ""),
             ("comment", .str cm)] ++
            focusEntries ["L", "M", "S"] dRows gRows ++ baseEntries kw,
    varsMap := bornVars,
    filenamesMap := [("born_dummy", "mem_dummy.in"),
                     ("born_run", "mem_placeion.in")] }

/-- BornAPBSmem.__init__: raises TypeError if dime is not of shape (3,) or
(3,3), broadcasts a flat dime to the three focusing levels, raises
TypeError if glen is not of shape (3,3), then builds the state.  Both
raises happen before any file or process side effect (the constructor has
none, hence events = []). -/
def BornAPBSmem.init (p ion c cm : String) (dime glen : GridInput)
    (kw : BaseKw) (dr ap : String) : InitResult :=
  if dime.shape = [3] ∨ dime.shape = [3, 3] then
    if glen.shape = [3, 3] then
      ⟨[], baseWarnings dr,
       .ok (bornState p ion c cm (bornDimeRows dime) glen.rowsOf kw dr ap)⟩
    else ⟨[], [], .error "glen must be a triplet of triplets."⟩
  else
    ⟨[], [], .error "dime must be a triplet of values or a triplet of such triplets"⟩

/-- APBSmem.generate: write dummy, run apbs on dummy, run drawmembrane
(infix defaulting to the suffix), write solvation. -/
def APBSmem.generate (st : MemState) (env : ToolEnv) : StepRes :=
  StepRes.seq (writeStep st "dummy") fun _ =>
  StepRes.seq (runApbsStep st env "dummy") fun _ =>
  StepRes.seq (runDrawStep st env none) fun _ =>
  writeStep st "solvation"

/-- BornAPBSmem.infices, in source order. -/
def infices : List String :=
  ["_prot_L", "_prot_M", "_prot_S", "_cpx_L", "_cpx_M", "_cpx_S"]

/-- The for loop of BornAPBSmem.generate over the infices. -/
def drawLoop (st : MemState) (env : ToolEnv) : List String → StepRes
  | [] => ⟨[], none⟩
  | i :: rest =>
    StepRes.seq (runDrawStep st env (some i)) fun _ => drawLoop st env rest

/-- BornAPBSmem.generate: write born_dummy, run apbs on born_dummy, run
drawmembrane once per infix, write born_run. -/
def BornAPBSmem.generate (st : MemState) (env : ToolEnv) : StepRes :=
  StepRes.seq (writeStep st "born_dummy") fun _ =>
  StepRes.seq (runApbsStep st env "born_dummy") fun _ =>
  StepRes.seq (drawLoop st env infices) fun _ =>
  writeStep st "born_run"

/-- Concrete default grids: dime (97,97,97) and the APBSmem default glen
(250,250,250). -/
def dime97 : List PyNum := [.int 97, .int 97, .int 97]

def glen250 : List PyNum := [.int 250, .int 250, .int 250]

/-- BornAPBSmem default glen [(250,250,250),(100,100,100),(50,50,50)]. -/
def bornGlenDefault : List (List PyNum) :=
  [[.int 250, .int 250, .int 250],
   [.int 100, .int 100, .int 100],
   [.int 50, .int 50, .int 50]]

/-- An environment in which every external tool exits 0. -/
def env0 : ToolEnv := ⟨fun _ => 0, fun _ => 0⟩

/-- A concrete default APBSmem instance. -/
def apbsDefault : MemState :=
  apbsState "protein.pqr" "_L" dime97 glen250 defaultBaseKw "draw_membrane2a" "apbs"

/-- A concrete default BornAPBSmem instance. -/
def bornDefault : MemState :=
  bornState "prot.pqr" "ion.pqr" "cpx.pqr" "BORNPROFILE" [dime97, dime97, dime97]
    bornGlenDefault defaultBaseKw "draw_membrane2a" "apbs"

lemma len3_ex {α : Type} (xs : List α) (h : xs.length = 3) :
    ∃ a b c, xs = [a, b, c] := by
  rcases xs with _ | ⟨a, _ | ⟨b, _ | ⟨c, _ | ⟨d, tl⟩⟩⟩⟩
  · simp at h
  · simp at h
  · simp at h
  · exact ⟨a, b, c, rfl⟩
  · simp only [List.length_cons] at h; omega

lemma mat_len3 (rs : List (List PyNum))
    (h : GridInput.shape (.mat rs) = [3] ∨ GridInput.shape (.mat rs) = [3, 3]) :
    rs.length = 3 := by
  rcases rs with _ | ⟨r, rest⟩
  · simp [GridInput.shape] at h
  · simp only [GridInput.shape] at h
    by_cases hr : rowsRect (r :: rest)
    · rw [if_pos hr] at h
      rcases h with h | h
      · exact absurd (congrArg List.length h) (by simp)
      · have h2 := h
        simp only [List.cons.injEq] at h2
        exact h2.1
    · rw [if_neg hr] at h
      rcases h with h | h
      · simpa using h
      · exact absurd (congrArg List.length h) (by simp)

lemma rows3_of_dime (g : GridInput)
    (h : g.shape = [3] ∨ g.shape = [3, 3]) :
    ∃ a b c, bornDimeRows g = [a, b, c] := by
  cases g with
  | vec xs => exact ⟨xs, xs, xs, rfl⟩
  | mat rs =>
    obtain ⟨a, b, c, habc⟩ := len3_ex rs (mat_len3 rs h)
    exact ⟨a, b, c, by simpa [bornDimeRows] using habc⟩

lemma shape33_rows (g : GridInput) (h : g.shape = [3, 3]) :
    ∃ a b c, g.rowsOf = [a, b, c] := by
  cases g with
  | vec xs => exact absurd (congrArg List.length h) (by simp [GridInput.shape])
  | mat rs =>
    obtain ⟨a, b, c, habc⟩ := len3_ex rs (mat_len3 rs (Or.inr h))
    exact ⟨a, b, c, by simpa [GridInput.rowsOf] using habc⟩

lemma born_init_ok (p ion c cm : String) (dime glen : GridInput) (kw : BaseKw)
    (dr ap : String) (st : MemState)
    (h : (BornAPBSmem.init p ion c cm dime glen kw dr ap).result = .ok st) :
    ∃ d1 d2 d3 g1 g2 g3,
      bornDimeRows dime = [d1, d2, d3] ∧ glen.rowsOf = [g1, g2, g3] ∧
      st = bornState p ion c cm [d1, d2, d3] [g1, g2, g3] kw dr ap := by
  unfold BornAPBSmem.init at h
  by_cases h1 : dime.shape = [3] ∨ dime.shape = [3, 3]
  · rw [if_pos h1] at h
    by_cases h2 : glen.shape = [3, 3]
    · rw [if_pos h2] at h
      obtain ⟨d1, d2, d3, hd⟩ := rows3_of_dime dime h1
      obtain ⟨g1, g2, g3, hg⟩ := shape33_rows glen h2
      refine ⟨d1, d2, d3, g1, g2, g3, hd, hg, ?_⟩
      have hst : bornState p ion c cm (bornDimeRows dime) glen.rowsOf kw dr ap = st :=
        Except.ok.inj h
      rw [← hst, hd, hg]
    · rw [if_neg h2] at h
      exact absurd h (by simp)
  · rw [if_neg h1] at h
    exact absurd h (by simp)

lemma born_write_dummy (p ion c cm : String) (d1 d2 d3 g1 g2 g3 : List PyNum)
    (kw : BaseKw) (dr ap : String) :
    writeStep (bornState p ion c cm [d1, d2, d3] [g1, g2, g3] kw dr ap) "born_dummy" =
      ⟨[.writeFile "mem_dummy.in"], none⟩ := rfl

lemma born_write_run (p ion c cm : String) (d1 d2 d3 g1 g2 g3 : List PyNum)
    (kw : BaseKw) (dr ap : String) :
    writeStep (bornState p ion c cm [d1, d2, d3] [g1, g2, g3] kw dr ap) "born_run" =
      ⟨[.writeFile "mem_placeion.in"], none⟩ := rfl

lemma born_run_apbs (p ion c cm : String) (d1 d2 d3 g1 g2 g3 : List PyNum)
    (kw : BaseKw) (dr ap : String) (env : ToolEnv) :
    runApbsStep (bornState p ion c cm [d1, d2, d3] [g1, g2, g3] kw dr ap) env "born_dummy" =
      ⟨[.apbsCall "born_dummy.out" "mem_dummy.in"],
       if env.apbsRC "born_dummy" = 0 then none
       else some (.apbsError (env.apbsRC "born_dummy"))⟩ := rfl

lemma born_run_draw (p ion c cm : String) (d1 d2 d3 g1 g2 g3 : List PyNum)
    (kw : BaseKw) (dr ap : String) (env : ToolEnv) (i : String) :
    runDrawStep (bornState p ion c cm [d1, d2, d3] [g1, g2, g3] kw dr ap) env (some i) =
      ⟨[.drawCall (dr :: i :: drawArgStrs kw)],
       if env.drawRC i = 0 then none else some (.drawError (env.drawRC i))⟩ := rfl

lemma born_generate_ok (p ion c cm : String) (d1 d2 d3 g1 g2 g3 : List PyNum)
    (kw : BaseKw) (dr ap : String) (env : ToolEnv)
    (hap : env.apbsRC "born_dummy" = 0) (hdr : ∀ s, env.drawRC s = 0) :
    BornAPBSmem.generate (bornState p ion c cm [d1, d2, d3] [g1, g2, g3] kw dr ap) env =
      ⟨[.writeFile "mem_dummy.in", .apbsCall "born_dummy.out" "mem_dummy.in"] ++
        infices.map (fun i => .drawCall (dr :: i :: drawArgStrs kw)) ++
        [.writeFile "mem_placeion.in"], none⟩ := by
  have ha : runApbsStep (bornState p ion c cm [d1, d2, d3] [g1, g2, g3] kw dr ap) env "born_dummy" =
      ⟨[.apbsCall "born_dummy.out" "mem_dummy.in"], none⟩ := by
    rw [born_run_apbs, hap]; simp
  have hd : ∀ i, runDrawStep (bornState p ion c cm [d1, d2, d3] [g1, g2, g3] kw dr ap) env (some i) =
      ⟨[.drawCall (dr :: i :: drawArgStrs kw)], none⟩ := by
    intro i
    rw [born_run_draw, hdr i]; simp
  rw [BornAPBSmem.generate, born_write_dummy, ha]
  simp [StepRes.seq, drawLoop, infices, hd, born_write_run]

lemma born_generate_apbs_fail (p ion c cm : String) (d1 d2 d3 g1 g2 g3 : List PyNum)
    (kw : BaseKw) (dr ap : String) (env : ToolEnv) (rc : Int)
    (hap : env.apbsRC "born_dummy" = rc) (hrc : rc ≠ 0) :
    BornAPBSmem.generate (bornState p ion c cm [d1, d2, d3] [g1, g2, g3] kw dr ap) env =
      ⟨[.writeFile "mem_dummy.in", .apbsCall "born_dummy.out" "mem_dummy.in"],
       some (.apbsError rc)⟩ := by
  have ha : runApbsStep (bornState p ion c cm [d1, d2, d3] [g1, g2, g3] kw dr ap) env "born_dummy" =
      ⟨[.apbsCall "born_dummy.out" "mem_dummy.in"], some (.apbsError rc)⟩ := by
    rw [born_run_apbs, hap, if_neg hrc]
  rw [BornAPBSmem.generate, born_write_dummy, ha]
  simp [StepRes.seq]

lemma apbs_write_dummy (pqr sfx : String) (dime glen : List PyNum) (kw : BaseKw)
    (dr ap : String) :
    writeStep (apbsState pqr sfx dime glen kw dr ap) "dummy" =
      ⟨[.writeFile ("dummy" ++ sfx ++ ".in")], none⟩ := rfl

lemma apbs_write_solvation (pqr sfx : String) (dime glen : List PyNum) (kw : BaseKw)
    (dr ap : String) :
    writeStep (apbsState pqr sfx dime glen kw dr ap) "solvation" =
      ⟨[], some (.keyError "")⟩ := rfl

lemma apbs_run_apbs (pqr sfx : String) (dime glen : List PyNum) (kw : BaseKw)
    (dr ap : String) (env : ToolEnv) :
    runApbsStep (apbsState pqr sfx dime glen kw dr ap) env "dummy" =
      ⟨[.apbsCall ("dummy" ++ sfx ++ ".out") ("dummy" ++ sfx ++ ".in")],
       if env.apbsRC "dummy" = 0 then none
       else some (.apbsError (env.apbsRC "dummy"))⟩ := rfl

lemma apbs_run_draw (pqr sfx : String) (dime glen : List PyNum) (kw : BaseKw)
    (dr ap : String) (env : ToolEnv) :
    runDrawStep (apbsState pqr sfx dime glen kw dr ap) env none =
      ⟨[.drawCall (dr :: sfx :: drawArgStrs kw)],
       if env.drawRC sfx = 0 then none else some (.drawError (env.drawRC sfx))⟩ := rfl

lemma apbs_generate_eval (pqr sfx : String) (dime glen : List PyNum) (kw : BaseKw)
    (dr ap : String) (env : ToolEnv)
    (hap : env.apbsRC "dummy" = 0) (hdr : env.drawRC sfx = 0) :
    APBSmem.generate (apbsState pqr sfx dime glen kw dr ap) env =
      ⟨[.writeFile ("dummy" ++ sfx ++ ".in"),
        .apbsCall ("dummy" ++ sfx ++ ".out") ("dummy" ++ sfx ++ ".in"),
        .drawCall (dr :: sfx :: drawArgStrs kw)],
       some (.keyError "")⟩ := by
  have ha : runApbsStep (apbsState pqr sfx dime glen kw dr ap) env "dummy" =
      ⟨[.apbsCall ("dummy" ++ sfx ++ ".out") ("dummy" ++ sfx ++ ".in")], none⟩ := by
    rw [apbs_run_apbs, hap]; simp
  have hd : runDrawStep (apbsState pqr sfx dime glen kw dr ap) env none =
      ⟨[.drawCall (dr :: sfx :: drawArgStrs kw)], none⟩ := by
    rw [apbs_run_draw, hdr]; simp
  rw [APBSmem.generate, apbs_write_dummy, ha]
  simp [StepRes.seq, hd, apbs_write_solvation]

lemma apbs_generate_apbs_fail (pqr sfx : String) (dime glen : List PyNum) (kw : BaseKw)
    (dr ap : String) (env : ToolEnv) (rc : Int)
    (hap : env.apbsRC "dummy" = rc) (hrc : rc ≠ 0) :
    APBSmem.generate (apbsState pqr sfx dime glen kw dr ap) env =
      ⟨[.writeFile ("dummy" ++ sfx ++ ".in"),
        .apbsCall ("dummy" ++ sfx ++ ".out") ("dummy" ++ sfx ++ ".in")],
       some (.apbsError rc)⟩ := by
  have ha : runApbsStep (apbsState pqr sfx dime glen kw dr ap) env "dummy" =
      ⟨[.apbsCall ("dummy" ++ sfx ++ ".out") ("dummy" ++ sfx ++ ".in")],
       some (.apbsError rc)⟩ := by
    rw [apbs_run_apbs, hap, if_neg hrc]
  rw [APBSmem.generate, apbs_write_dummy, ha]
  simp [StepRes.seq]

/-- Environment in which apbs always exits 1 and drawmembrane exits 0. -/
def envApbsFail : ToolEnv := ⟨fun _ => 1, fun _ => 0⟩

/-- C1: for every BornAPBSmem instance whose external tools all exit 0,
generate() performs exactly this trace: one write of mem_dummy.in, one
apbs invocation (the only solver call), then exactly one drawmembrane
invocation per infix in (_prot_L, _prot_M, _prot_S, _cpx_L, _cpx_M,
_cpx_S), then the final born_run render of mem_placeion.in.  The solver
call precedes all six geometry calls and the final render follows them. -/
theorem C1_born_generate_sequence (p ion c cm : String) (dime glen : GridInput)
    (kw : BaseKw) (dr ap : String) (st : MemState) (env : ToolEnv)
    (hinit : (BornAPBSmem.init p ion c cm dime glen kw dr ap).result = .ok st)
    (hap : ∀ s, env.apbsRC s = 0) (hdr : ∀ s, env.drawRC s = 0) :
    BornAPBSmem.generate st env =
      ⟨[.writeFile "mem_dummy.in", .apbsCall "born_dummy.out" "mem_dummy.in"] ++
        infices.map (fun i => .drawCall (dr :: i :: drawArgStrs kw)) ++
        [.writeFile "mem_placeion.in"], none⟩ ∧
    ((BornAPBSmem.generate st env).events.filter MemEvent.isApbs).length = 1 ∧
    ((BornAPBSmem.generate st env).events.filter MemEvent.isDraw).length = 6 := by
  obtain ⟨d1, d2, d3, g1, g2, g3, hd, hg, hst⟩ :=
    born_init_ok _ _ _ _ _ _ _ _ _ _ hinit
  subst hst
  have heq := born_generate_ok p ion c cm d1 d2 d3 g1 g2 g3 kw dr ap env (hap _) hdr
  refine ⟨heq, ?_, ?_⟩ <;> rw [heq] <;>
    simp [infices, MemEvent.isApbs, MemEvent.isDraw]

/-- C1 witness: the default BornAPBSmem instance under tools that exit 0. -/
theorem C1_born_generate_sequence_witness :
    BornAPBSmem.generate bornDefault env0 =
      ⟨[.writeFile "mem_dummy.in", .apbsCall "born_dummy.out" "mem_dummy.in"] ++
        infices.map (fun i =>
          .drawCall ("draw_membrane2a" :: i :: drawArgStrs defaultBaseKw)) ++
        [.writeFile "mem_placeion.in"], none⟩ ∧
    ((BornAPBSmem.generate bornDefault env0).events.filter MemEvent.isApbs).length = 1 ∧
    ((BornAPBSmem.generate bornDefault env0).events.filter MemEvent.isDraw).length = 6 :=
  C1_born_generate_sequence "prot.pqr" "ion.pqr" "cpx.pqr" "BORNPROFILE"
    (.vec dime97) (.mat bornGlenDefault) defaultBaseKw "draw_membrane2a" "apbs"
    bornDefault env0 rfl (fun _ => rfl) (fun _ => rfl)

/-- C2: the claim fails on the code.  On the default APBSmem instance with
every external tool exiting 0, generate() does call apbs once and then
drawmembrane once, in that order, but the final solvation render raises
KeyError of the empty slot name (the slot list of the solvation stage in
APBSmem contains a double comma), so the solvation input file is never
written.  This contradicts the generate docstring step 3 (create apbs run
input file): a code bug. -/
theorem C2_solvation_render_crashes :
    APBSmem.generate apbsDefault env0 =
      ⟨[.writeFile "dummy_L.in", .apbsCall "dummy_L.out" "dummy_L.in",
        .drawCall ["draw_membrane2a", "_L", "0.0", "40.0", "10.0", "0.0",
                   "0.1", "0", "0"]],
       some (.keyError "")⟩ ∧
    MemEvent.writeFile "solvation_L.in" ∉ (APBSmem.generate apbsDefault env0).events ∧
    ((APBSmem.generate apbsDefault env0).events.filter MemEvent.isApbs).length = 1 ∧
    ((APBSmem.generate apbsDefault env0).events.filter MemEvent.isDraw).length = 1 := by
  decide

/-- C3: for both orchestrators, if apbs exits with a nonzero code rc
during generate(), the pipeline raises the error carrying rc, no
drawmembrane invocation happens, and the final-stage input file is not
written. -/
theorem C3_solver_failure_halts (p ion c cm : String) (dime glen : GridInput)
    (kwB : BaseKw) (drB apB : String) (stB : MemState)
    (pqr sfx : String) (dimeA glenA : List PyNum) (kwA : BaseKw)
    (drA apA : String) (stA : MemState) (env : ToolEnv) (rc : Int)
    (hrc : rc ≠ 0)
    (hB : (BornAPBSmem.init p ion c cm dime glen kwB drB apB).result = .ok stB)
    (hA : (APBSmem.init pqr sfx dimeA glenA kwA drA apA).result = .ok stA)
    (henvB : env.apbsRC "born_dummy" = rc) (henvA : env.apbsRC "dummy" = rc) :
    ((BornAPBSmem.generate stB env).error = some (.apbsError rc) ∧
     (BornAPBSmem.generate stB env).events.filter MemEvent.isDraw = [] ∧
     MemEvent.writeFile "mem_placeion.in" ∉ (BornAPBSmem.generate stB env).events) ∧
    ((APBSmem.generate stA env).error = some (.apbsError rc) ∧
     (APBSmem.generate stA env).events.filter MemEvent.isDraw = [] ∧
     MemEvent.writeFile ("solvation" ++ sfx ++ ".in") ∉
       (APBSmem.generate stA env).events) := by
  obtain ⟨d1, d2, d3, g1, g2, g3, hd, hg, hstB⟩ :=
    born_init_ok _ _ _ _ _ _ _ _ _ _ hB
  subst hstB
  have hstA : stA = apbsState pqr sfx dimeA glenA kwA drA apA :=
    (Except.ok.inj hA).symm
  subst hstA
  have heqB := born_generate_apbs_fail p ion c cm d1 d2 d3 g1 g2 g3 kwB drB apB
    env rc henvB hrc
  have heqA := apbs_generate_apbs_fail pqr sfx dimeA glenA kwA drA apA env rc
    henvA hrc
  have hne : ("solvation" ++ sfx ++ ".in") ≠ ("dummy" ++ sfx ++ ".in") := by
    intro h
    have h2 := congrArg String.length h
    rw [String.length_append, String.length_append, String.length_append,
        String.length_append] at h2
    have h9 : ("solvation" : String).length = 9 := rfl
    have h5 : ("dummy" : String).length = 5 := rfl
    rw [h9, h5] at h2
    omega
  constructor
  · rw [heqB]
    refine ⟨rfl, by simp [MemEvent.isDraw], by simp⟩
  · rw [heqA]
    refine ⟨rfl, by simp [MemEvent.isDraw], by simp [hne]⟩

/-- C3 witness: default instances of both classes under an apbs stub
exiting 1. -/
theorem C3_solver_failure_halts_witness :
    ((BornAPBSmem.generate bornDefault envApbsFail).error = some (.apbsError 1) ∧
     (BornAPBSmem.generate bornDefault envApbsFail).events.filter MemEvent.isDraw = [] ∧
     MemEvent.writeFile "mem_placeion.in" ∉
       (BornAPBSmem.generate bornDefault envApbsFail).events) ∧
    ((APBSmem.generate apbsDefault envApbsFail).error = some (.apbsError 1) ∧
     (APBSmem.generate apbsDefault envApbsFail).events.filter MemEvent.isDraw = [] ∧
     MemEvent.writeFile ("solvation" ++ "_L" ++ ".in") ∉
       (APBSmem.generate apbsDefault envApbsFail).events) :=
  C3_solver_failure_halts "prot.pqr" "ion.pqr" "cpx.pqr" "BORNPROFILE"
    (.vec dime97) (.mat bornGlenDefault) defaultBaseKw "draw_membrane2a" "apbs"
    bornDefault "protein.pqr" "_L" dime97 glen250 defaultBaseKw
    "draw_membrane2a" "apbs" apbsDefault envApbsFail 1 (by decide) rfl rfl rfl rfl

/-- C4: in BornAPBSmem, a grid-dimension input given as a single 3-vector
is broadcast identically to all three focusing levels (DIME_XYZ_L,
DIME_XYZ_M, DIME_XYZ_S all hold its serialization), and a 3x3 input maps
row 0 to L, row 1 to M and row 2 to S, each unchanged. -/
theorem C4_dime_broadcast (p ion c cm : String) (glen : GridInput) (kw : BaseKw)
    (dr ap : String) :
    (∀ (xs : List PyNum) (st : MemState),
       (BornAPBSmem.init p ion c cm (.vec xs) glen kw dr ap).result = .ok st →
       lookupAttr st.dict "DIME_XYZ_L" = some (.str (vec2str xs)) ∧
       lookupAttr st.dict "DIME_XYZ_M" = some (.str (vec2str xs)) ∧
       lookupAttr st.dict "DIME_XYZ_S" = some (.str (vec2str xs))) ∧
    (∀ (r1 r2 r3 : List PyNum) (st : MemState),
       (BornAPBSmem.init p ion c cm (.mat [r1, r2, r3]) glen kw dr ap).result = .ok st →
       lookupAttr st.dict "DIME_XYZ_L" = some (.str (vec2str r1)) ∧
       lookupAttr st.dict "DIME_XYZ_M" = some (.str (vec2str r2)) ∧
       lookupAttr st.dict "DIME_XYZ_S" = some (.str (vec2str r3))) := by
  constructor
  · intro xs st hinit
    obtain ⟨d1, d2, d3, g1, g2, g3, hd, hg, hst⟩ :=
      born_init_ok _ _ _ _ _ _ _ _ _ _ hinit
    subst hst
    have hd2 : ([xs, xs, xs] : List (List PyNum)) = [d1, d2, d3] := hd
    simp only [List.cons.injEq, and_true] at hd2
    obtain ⟨h1, h2, h3⟩ := hd2
    subst h1; subst h2; subst h3
    exact ⟨rfl, rfl, rfl⟩
  · intro r1 r2 r3 st hinit
    obtain ⟨d1, d2, d3, g1, g2, g3, hd, hg, hst⟩ :=
      born_init_ok _ _ _ _ _ _ _ _ _ _ hinit
    subst hst
    have hd2 : ([r1, r2, r3] : List (List PyNum)) = [d1, d2, d3] := hd
    simp only [List.cons.injEq, and_true] at hd2
    obtain ⟨h1, h2, h3⟩ := hd2
    subst h1; subst h2; subst h3
    exact ⟨rfl, rfl, rfl⟩

/-- C4 witness: the default single 3-vector dime on the default instance. -/
theorem C4_dime_broadcast_witness :
    lookupAttr bornDefault.dict "DIME_XYZ_L" = some (.str (vec2str dime97)) ∧
    lookupAttr bornDefault.dict "DIME_XYZ_M" = some (.str (vec2str dime97)) ∧
    lookupAttr bornDefault.dict "DIME_XYZ_S" = some (.str (vec2str dime97)) :=
  (C4_dime_broadcast "prot.pqr" "ion.pqr" "cpx.pqr" "BORNPROFILE"
    (.mat bornGlenDefault) defaultBaseKw "draw_membrane2a" "apbs").1
    dime97 bornDefault rfl

/-- C5: a grid-dimension input whose array shape is neither (3,) nor (3,3)
makes BornAPBSmem construction raise the TypeError for dime, and the
constructor performs no file or process side effect (its event list is
empty). -/
theorem C5_bad_dime_shape_fails (p ion c cm : String) (dime glen : GridInput)
    (kw : BaseKw) (dr ap : String)
    (h1 : dime.shape ≠ [3]) (h2 : dime.shape ≠ [3, 3]) :
    (BornAPBSmem.init p ion c cm dime glen kw dr ap).result =
      .error "dime must be a triplet of values or a triplet of such triplets" ∧
    (BornAPBSmem.init p ion c cm dime glen kw dr ap).events = [] := by
  unfold BornAPBSmem.init
  rw [if_neg (not_or.mpr ⟨h1, h2⟩)]
  exact ⟨rfl, rfl⟩

/-- C5 witness: a dime of shape (2,). -/
theorem C5_bad_dime_shape_fails_witness :
    (BornAPBSmem.init "prot.pqr" "ion.pqr" "cpx.pqr" "BORNPROFILE"
      (.vec [.int 97, .int 97]) (.mat bornGlenDefault) defaultBaseKw
      "draw_membrane2a" "apbs").result =
      .error "dime must be a triplet of values or a triplet of such triplets" ∧
    (BornAPBSmem.init "prot.pqr" "ion.pqr" "cpx.pqr" "BORNPROFILE"
      (.vec [.int 97, .int 97]) (.mat bornGlenDefault) defaultBaseKw
      "draw_membrane2a" "apbs").events = [] :=
  C5_bad_dime_shape_fails "prot.pqr" "ion.pqr" "cpx.pqr" "BORNPROFILE"
    (.vec [.int 97, .int 97]) (.mat bornGlenDefault) defaultBaseKw
    "draw_membrane2a" "apbs" (by decide) (by decide)

/-- C6 counterexample: the claim quantifies over every construction, but
APBSmem performs no shape validation on its grid-length input: a single
triplet glen of shape (3,) is accepted, construction succeeds, and the
triplet is serialized into GLEN_XYZ.  The claim as stated is therefore
false. -/
theorem C6_counterexample_apbsmem_accepts_vector_glen :
    isOkE (APBSmem.init "protein.pqr" "_L" dime97 glen250 defaultBaseKw
      "draw_membrane2a" "apbs").result = true ∧
    glen250.length = 3 ∧
    lookupAttr (apbsState "protein.pqr" "_L" dime97 glen250 defaultBaseKw
      "draw_membrane2a" "apbs").dict "GLEN_XYZ" = some (.str "250 250 250") := by
  decide

/-- C6 amended: only BornAPBSmem validates the grid-length shape: with a
valid dime, any glen whose shape is not (3,3) makes BornAPBSmem
construction raise the TypeError for glen (no broadcasting); APBSmem
accepts any grid-length input without validation. -/
theorem C6_amended_glen_check (p ion c cm : String) (dime glen : GridInput)
    (kw : BaseKw) (dr ap : String)
    (hd : dime.shape = [3] ∨ dime.shape = [3, 3]) (hg : glen.shape ≠ [3, 3]) :
    (BornAPBSmem.init p ion c cm dime glen kw dr ap).result =
      .error "glen must be a triplet of triplets." ∧
    (∀ (pqr sfx : String) (dimeA glenA : List PyNum) (kwA : BaseKw)
       (drA apA : String),
       isOkE (APBSmem.init pqr sfx dimeA glenA kwA drA apA).result = true) := by
  constructor
  · unfold BornAPBSmem.init
    rw [if_pos hd, if_neg hg]
  · intro pqr sfx dimeA glenA kwA drA apA
    rfl

/-- C6 amended witness: a glen given as a single triplet. -/
theorem C6_amended_glen_check_witness :
    (BornAPBSmem.init "prot.pqr" "ion.pqr" "cpx.pqr" "BORNPROFILE"
      (.vec dime97) (.vec glen250) defaultBaseKw "draw_membrane2a" "apbs").result =
      .error "glen must be a triplet of triplets." ∧
    (∀ (pqr sfx : String) (dimeA glenA : List PyNum) (kwA : BaseKw)
       (drA apA : String),
       isOkE (APBSmem.init pqr sfx dimeA glenA kwA drA apA).result = true) :=
  C6_amended_glen_check "prot.pqr" "ion.pqr" "cpx.pqr" "BORNPROFILE"
    (.vec dime97) (.vec glen250) defaultBaseKw "draw_membrane2a" "apbs"
    (by decide) (by decide)

/-- C7: every drawmembrane invocation puts after the executable exactly
the infix followed by zmem, lmem, pdie, Vmem, conc, Rtop and Rbot,
stringified by str(); with the default parameters (zmem=0.0, lmem=40.0,
pdie=10.0, Vmem=0.0, conc=0.1, Rtop=0, Rbot=0) those seven strings are
exactly 0.0, 40.0, 10.0, 0.0, 0.1, 0, 0. -/
theorem C7_draw_cmdline (p ion c cm : String) (dime glen : GridInput)
    (kw : BaseKw) (dr ap : String) (st : MemState) (env : ToolEnv) (ifx : String)
    (hinit : (BornAPBSmem.init p ion c cm dime glen kw dr ap).result = .ok st) :
    (runDrawStep st env (some ifx)).events =
      [.drawCall (dr :: ifx :: drawArgStrs kw)] ∧
    drawArgStrs defaultBaseKw = ["0.0", "40.0", "10.0", "0.0", "0.1", "0", "0"] := by
  obtain ⟨d1, d2, d3, g1, g2, g3, hd, hg, hst⟩ :=
    born_init_ok _ _ _ _ _ _ _ _ _ _ hinit
  subst hst
  constructor
  · rw [born_run_draw]
  · decide

/-- C7 witness: infix _prot_L on the default instance. -/
theorem C7_draw_cmdline_witness :
    (runDrawStep bornDefault env0 (some "_prot_L")).events =
      [.drawCall ("draw_membrane2a" :: "_prot_L" :: drawArgStrs defaultBaseKw)] ∧
    drawArgStrs defaultBaseKw = ["0.0", "40.0", "10.0", "0.0", "0.1", "0", "0"] :=
  C7_draw_cmdline "prot.pqr" "ion.pqr" "cpx.pqr" "BORNPROFILE" (.vec dime97)
    (.mat bornGlenDefault) defaultBaseKw "draw_membrane2a" "apbs" bornDefault
    env0 "_prot_L" rfl

lemma gvd_error_of_missing (d : AttrDict) (ks : List String)
    (h : ∃ k ∈ ks, lookupAttr d (stripStr k) = none) :
    ∃ k2 ∈ ks, lookupAttr d (stripStr k2) = none ∧
      gvdAux d ks = .error (.keyError (stripStr k2)) := by
  induction ks with
  | nil =>
    obtain ⟨k, hk, _⟩ := h
    exact absurd hk (List.not_mem_nil k)
  | cons a as ih =>
    by_cases ha : lookupAttr d (stripStr a) = none
    · exact ⟨a, List.mem_cons_self a as, ha, by simp [gvdAux, ha]⟩
    · obtain ⟨k, hk, hkn⟩ := h
      rcases List.mem_cons.mp hk with hka | hk2
      · exact absurd (hka ▸ hkn) ha
      · obtain ⟨k2, hk2m, hk2n, heq⟩ := ih ⟨k, hk2, hkn⟩
        refine ⟨k2, List.mem_cons_of_mem _ hk2m, hk2n, ?_⟩
        obtain ⟨v, hv⟩ := Option.ne_none_iff_exists'.mp ha
        simp [gvdAux, hv, heq]

/-- C8: if any slot named in the required-slot list of a stage is absent
from the instance dictionary, rendering that stage raises KeyError for
some absent slot and performs no write at all (the failure happens before
the output file is opened). -/
theorem C8_missing_slot_no_write (st : MemState) (stage vs k : String)
    (hv : lookupStr st.varsMap stage = some vs)
    (hk : k ∈ splitCommas vs)
    (hmiss : lookupAttr st.dict (stripStr k) = none) :
    (writeStep st stage).events = [] ∧
    ∃ k2, (writeStep st stage).error = some (.keyError (stripStr k2)) ∧
      lookupAttr st.dict (stripStr k2) = none := by
  obtain ⟨k2, hk2m, hk2n, heq⟩ :=
    gvd_error_of_missing st.dict (splitCommas vs) ⟨k, hk, hmiss⟩
  have hw : writeStep st stage = ⟨[], some (.keyError (stripStr k2))⟩ := by
    unfold writeStep get_var_dict
    rw [hv]
    dsimp only
    rw [heq]
  rw [hw]
  exact ⟨rfl, k2, rfl, hk2n⟩

/-- C8 witness: the empty slot name produced by the double comma in the
solvation slot list of the default APBSmem instance. -/
theorem C8_missing_slot_no_write_witness :
    (writeStep apbsDefault "solvation").events = [] ∧
    ∃ k2, (writeStep apbsDefault "solvation").error =
        some (.keyError (stripStr k2)) ∧
      lookupAttr apbsDefault.dict (stripStr k2) = none :=
  C8_missing_slot_no_write apbsDefault "solvation"
    "pqr,suffix,pdie,sdie,conc,temperature,,DIME_XYZ,GLEN_XYZ" ""
    rfl (by decide) (by decide)

/-- C9: construction warns, without raising, exactly when the basename of
the configured drawmembrane executable is not draw_membrane2a: both
constructors succeed for every executable path, emit the compatibility
warning when the basename differs, and emit no warning when it matches. -/
theorem C9_compat_warning (dr ap : String) (pqr sfx : String)
    (dimeA glenA : List PyNum) (kwA : BaseKw) (p ion c cm : String)
    (dime glen : GridInput) (kwB : BaseKw)
    (hd : dime.shape = [3] ∨ dime.shape = [3, 3]) (hg : glen.shape = [3, 3]) :
    ((APBSmem.init pqr sfx dimeA glenA kwA dr ap).warnings = baseWarnings dr ∧
     isOkE (APBSmem.init pqr sfx dimeA glenA kwA dr ap).result = true) ∧
    ((BornAPBSmem.init p ion c cm dime glen kwB dr ap).warnings = baseWarnings dr ∧
     isOkE (BornAPBSmem.init p ion c cm dime glen kwB dr ap).result = true) ∧
    (baseWarnings dr = [] ↔ pyBasename dr = "draw_membrane2a") := by
  refine ⟨⟨rfl, rfl⟩, ⟨?_, ?_⟩, ?_⟩
  · unfold BornAPBSmem.init
    rw [if_pos hd, if_pos hg]
  · unfold BornAPBSmem.init
    rw [if_pos hd, if_pos hg]
    rfl
  · unfold baseWarnings
    by_cases h : pyBasename dr = "draw_membrane2a"
    · simp [h]
    · simp [h, compatWarning]

/-- C9 witness: the compatible executable name on default instances. -/
theorem C9_compat_warning_witness :
    ((APBSmem.init "protein.pqr" "_L" dime97 glen250 defaultBaseKw
        "draw_membrane2a" "apbs").warnings = baseWarnings "draw_membrane2a" ∧
     isOkE (APBSmem.init "protein.pqr" "_L" dime97 glen250 defaultBaseKw
        "draw_membrane2a" "apbs").result = true) ∧
    ((BornAPBSmem.init "prot.pqr" "ion.pqr" "cpx.pqr" "BORNPROFILE"
        (.vec dime97) (.mat bornGlenDefault) defaultBaseKw "draw_membrane2a"
        "apbs").warnings = baseWarnings "draw_membrane2a" ∧
     isOkE (BornAPBSmem.init "prot.pqr" "ion.pqr" "cpx.pqr" "BORNPROFILE"
        (.vec dime97) (.mat bornGlenDefault) defaultBaseKw "draw_membrane2a"
        "apbs").result = true) ∧
    (baseWarnings "draw_membrane2a" = [] ↔
      pyBasename "draw_membrane2a" = "draw_membrane2a") :=
  C9_compat_warning "draw_membrane2a" "apbs" "protein.pqr" "_L" dime97 glen250
    defaultBaseKw "prot.pqr" "ion.pqr" "cpx.pqr" "BORNPROFILE" (.vec dime97)
    (.mat bornGlenDefault) defaultBaseKw (by decide) (by decide)

/-- C10: for every successfully constructed BornAPBSmem, whatever the
constructor arguments, the input filenames of the two stages are the
constants mem_dummy.in (born_dummy) and mem_placeion.in (born_run). -/
theorem C10_fixed_input_filenames (p ion c cm : String) (dime glen : GridInput)
    (kw : BaseKw) (dr ap : String) (st : MemState)
    (hinit : (BornAPBSmem.init p ion c cm dime glen kw dr ap).result = .ok st) :
    lookupStr st.filenamesMap "born_dummy" = some "mem_dummy.in" ∧
    lookupStr st.filenamesMap "born_run" = some "mem_placeion.in" := by
  obtain ⟨d1, d2, d3, g1, g2, g3, hd, hg, hst⟩ :=
    born_init_ok _ _ _ _ _ _ _ _ _ _ hinit
  subst hst
  exact ⟨rfl, rfl⟩

/-- C10 witness: the default instance with a nonempty suffix-like comment
and infix setup still writes the constant filenames. -/
theorem C10_fixed_input_filenames_witness :
    lookupStr bornDefault.filenamesMap "born_dummy" = some "mem_dummy.in" ∧
    lookupStr bornDefault.filenamesMap "born_run" = some "mem_placeion.in" :=
  C10_fixed_input_filenames "prot.pqr" "ion.pqr" "cpx.pqr" "BORNPROFILE"
    (.vec dime97) (.mat bornGlenDefault) defaultBaseKw "draw_membrane2a" "apbs"
    bornDefault rfl
